import Mathlib

/-!
Verification of the pysnakebyte repository against its specification.

The repository under `src/` contains the React frontend (`src/frontend/src/App.js`,
`src/frontend/src/components/Login.js`), the project README and a startup shell
script.  The FastAPI backend and the Docker sandbox that the specification
describes (`backend/app/main.py`, `sandbox/Dockerfile` in the README project
layout) are not part of `src/`; definitions for those components are modelled
from the specification text and marked as such in their doc comments.
-/

namespace PySnakeByte

/-! ## Frontend request construction (src/frontend/src/App.js, `api`) -/

/-- From `api.executeCode` in src/frontend/src/App.js:
`axios.post(API_URL/api/execute, { code })`.  The request body is modelled as
an association list of field names and values. -/
def executeCodeRequestBody (code : String) : List (String × String) :=
  [("code", code)]

/-- From `api.submitChallenge` in src/frontend/src/App.js:
`axios.post(API_URL/api/challenges/id/submit, { code, challenge_id: id })`. -/
def submitChallengeRequestBody (id code : String) : List (String × String) :=
  [("code", code), ("challenge_id", id)]

/-! ## Frontend response consumption -/

/-- Response fields read by `handleRun`: `success`, `output`, `error`.
`none` models a JavaScript `undefined` field. -/
structure RunResponse where
  success : Bool
  output : Option String
  error : Option String

/-- Response fields read by `ChallengesPage`: `passed`, `output`, `error`. -/
structure SubmitResponse where
  passed : Bool
  output : Option String
  error : Option String

/-- JavaScript truthiness of an optional string: `undefined` and the empty
string are falsy. -/
def jsTruthy (a : Option String) : Bool :=
  match a with
  | some s => s ≠ ""
  | none => false

/-- JavaScript `a || d` for an optional string `a` and a default `d`. -/
def jsOr (a : Option String) (d : String) : String :=
  if jsTruthy a then a.getD d else d

/-- Rendering of an optional string inside a template literal: an
`undefined` field prints as the text `undefined`. -/
def jsTemplate (a : Option String) : String :=
  match a with
  | some s => s
  | none => "undefined"

/-- From `handleRun` in src/frontend/src/App.js: the output-panel text and the
error flag chosen from the response.  On `success` it shows
`result.output || default`; otherwise `result.error || default`. -/
def handleRunDisplay (r : RunResponse) : String × Bool :=
  if r.success then
    (jsOr r.output "Code executed successfully (no output)", false)
  else
    (jsOr r.error "An error occurred", true)

/-- From `ChallengesPage` in src/frontend/src/App.js: the verdict banner text,
`result.passed ? passed-banner : failure banner with result.error || result.output`. -/
def submitResultText (r : SubmitResponse) : String :=
  if r.passed then
    "✅ All tests passed!"
  else
    "❌ Tests failed: " ++
      (if jsTruthy r.error then jsTemplate r.error else jsTemplate r.output)

/-! ## Frontend progress marking (src/frontend/src/App.js, `ProgressProvider`) -/

/-- Result of one call to a progress-marking function: the completed list
after the call settles, and whether a remote write was attempted. -/
structure ProgressUpdate where
  newCompleted : List String
  wroteRemote : Bool
  deriving DecidableEq, Repr

/-- From `markLessonComplete` in src/frontend/src/App.js.  `hasUser` models
`currentUser` being non-null, `saveOk` models whether the Firestore `setDoc`
resolves; on rejection the optimistic update is reverted with
`prev.filter(id => id !== lessonId)`. -/
def markLessonComplete (hasUser : Bool) (completedLessons : List String)
    (lessonId : String) (saveOk : Bool) : ProgressUpdate :=
  if !hasUser then ⟨completedLessons, false⟩
  else if completedLessons.contains lessonId then ⟨completedLessons, false⟩
  else if saveOk then ⟨completedLessons ++ [lessonId], true⟩
  else ⟨(completedLessons ++ [lessonId]).filter (fun id => id ≠ lessonId), true⟩

/-- From `markChallengeComplete` in src/frontend/src/App.js; textually the
same logic as `markLessonComplete` over `completedChallenges`. -/
def markChallengeComplete (hasUser : Bool) (completedChallenges : List String)
    (challengeId : String) (saveOk : Bool) : ProgressUpdate :=
  if !hasUser then ⟨completedChallenges, false⟩
  else if completedChallenges.contains challengeId then ⟨completedChallenges, false⟩
  else if saveOk then ⟨completedChallenges ++ [challengeId], true⟩
  else ⟨(completedChallenges ++ [challengeId]).filter (fun id => id ≠ challengeId), true⟩

/-! ## Result Normalizer (modelled from the spec) -/

/-- Modelled from the spec: the raw process outcome consumed by the backend
Result Normalizer (§4.3); the backend `backend/app/main.py` is not under
`src/`. -/
structure RawOutcome where
  stdout : String
  stderr : String
  exitCode : Int
  timedOut : Bool
  resourceExceeded : Bool
  deriving DecidableEq, Repr

/-- A success/failure classification carrying the surfaced message. -/
inductive Classified where
  | failure : String → Classified
  | success : String → Classified
  deriving DecidableEq, Repr

/-- Modelled from the spec: `normalize(rawOutcome)` of the backend Result
Normalizer (§4.3), applying the classification policy in priority order. -/
def normalize (r : RawOutcome) : Classified :=
  if r.timedOut then .failure "execution timed out"
  else if r.resourceExceeded then .failure "resource limit exceeded"
  else if r.exitCode ≠ 0 then .failure r.stderr
  else .success r.stdout

/-- Guard of the first classification: the run timed out. -/
def guardTimeout (r : RawOutcome) : Prop := r.timedOut = true

/-- Guard of the second classification: no timeout, but a resource limit was
hit. -/
def guardResource (r : RawOutcome) : Prop :=
  r.timedOut = false ∧ r.resourceExceeded = true

/-- Guard of the third classification: neither timeout nor resource kill, and
the process exited nonzero. -/
def guardNonZeroExit (r : RawOutcome) : Prop :=
  r.timedOut = false ∧ r.resourceExceeded = false ∧ r.exitCode ≠ 0

/-- Guard of the success classification: clean exit with no flag set. -/
def guardClean (r : RawOutcome) : Prop :=
  r.timedOut = false ∧ r.resourceExceeded = false ∧ r.exitCode = 0

/-! ## Grading Harness (modelled from the spec) -/

/-- Modelled from the spec: the structured result record (§3) produced by the
backend for every accepted request; the backend is not under `src/`. -/
structure ExecutionResult where
  stdout : String
  stderr : String
  exitCode : Option Int
  timedOut : Bool
  resourceExceeded : Bool
  success : Bool
  deriving DecidableEq, Repr

/-- Modelled from the spec: the pass/fail verdict with diagnostics (§3). -/
structure GradeVerdict where
  passed : Bool
  diagnostics : String
  deriving DecidableEq, Repr

/-- Does the character list `s` start with the token `tok`? -/
def tokenAtFront : List Char → List Char → Bool
  | _, [] => true
  | [], _ :: _ => false
  | c :: cs, t :: ts => c = t && tokenAtFront cs ts

/-- Does the character list `s` contain the token `tok` anywhere? -/
def tokenIn (s tok : List Char) : Bool :=
  match s with
  | [] => tok.isEmpty
  | _ :: cs => tokenAtFront s tok || tokenIn cs tok

/-- The sentinel token is present somewhere in the captured output. -/
def sentinelPresent (out tok : String) : Bool :=
  tokenIn out.toList tok.toList

/-- Size cap applied to diagnostics text (the 64KB output-buffer example of
the specification, §4.2). -/
def diagCap : Nat := 65536

/-- Truncate a text to at most `diagCap` characters. -/
def capText (s : String) : String :=
  ⟨s.toList.take diagCap⟩

/-- Modelled from the spec: the verdict-parsing step of
`grade(challenge, submittedSource)` (§4.4): `success == true` and sentinel
present means passed; any other outcome means failed with capped diagnostics
from stderr/stdout. -/
def parseVerdict (sentinel : String) (res : ExecutionResult) : GradeVerdict :=
  if res.success && sentinelPresent res.stdout sentinel then
    ⟨true, ""⟩
  else
    ⟨false, capText (res.stderr ++ res.stdout)⟩

/-! ## Execution Controller (modelled from the spec) -/

/-- Modelled from the spec: the event that ends a run inside the Execution
Controller (§4.2, §7): normal completion, timer expiry, resource-limit kill,
or an unexpected internal fault in the controller itself.  The backend is
not under `src/`. -/
inductive RunEvent where
  | completed (exitCode : Int) (stdout stderr : String)
  | timerExpiry (stdoutSoFar stderrSoFar : String)
  | resourceKill (stdoutSoFar stderrSoFar : String)
  | internalFault (msg : String)
  deriving DecidableEq, Repr

/-- Modelled from the spec: the fallible raw-outcome collection step; an
internal fault surfaces as an error of this step. -/
def rawOfEvent : RunEvent → Except String RawOutcome
  | .completed ec so se => .ok ⟨so, se, ec, false, false⟩
  | .timerExpiry so se => .ok ⟨so, se, -1, true, false⟩
  | .resourceKill so se => .ok ⟨so, se, -1, false, true⟩
  | .internalFault m => .error m

/-- Build the immutable `ExecutionResult` from a raw outcome: size-capped
buffers and the success flag of the normalizer policy. -/
def resultOfRaw (r : RawOutcome) : ExecutionResult :=
  ⟨capText r.stdout, capText r.stderr, some r.exitCode, r.timedOut, r.resourceExceeded,
    !r.timedOut && !r.resourceExceeded && r.exitCode == 0⟩

/-- Modelled from the spec: the generic failure surfaced for an
`InternalError` (§7); no flag is set and `success` is false. -/
def internalErrorResult : ExecutionResult :=
  ⟨"", "internal error", none, false, false, false⟩

/-- Modelled from the spec: the Execution Controller wrapper that catches
every internal fault (§7): it never propagates an error, always answering
with an `ExecutionResult`. -/
def runController (ev : RunEvent) : Except String ExecutionResult :=
  match rawOfEvent ev with
  | .ok raw => .ok (resultOfRaw raw)
  | .error _ => .ok internalErrorResult

/-- The four terminal classifications of the per-request state machine
(§4.4): `Completed`, `TimedOut`, `ResourceExceeded`, `Crashed`. -/
inductive TerminalClass where
  | completedRun
  | timedOutRun
  | resourceExceededRun
  | failedRun
  deriving DecidableEq, Repr

/-- Which terminal classification a result carries. -/
def classifiesAs (res : ExecutionResult) : TerminalClass → Prop
  | .timedOutRun => res.timedOut = true
  | .resourceExceededRun => res.timedOut = false ∧ res.resourceExceeded = true
  | .failedRun => res.timedOut = false ∧ res.resourceExceeded = false ∧ res.success = false
  | .completedRun => res.timedOut = false ∧ res.resourceExceeded = false ∧ res.success = true

/-! ## Sandbox handle lifecycle (modelled from the spec) -/

/-- The lifecycle states of a sandbox handle (§3). -/
inductive HandleState where
  | idle
  | acquired
  | running
  | terminating
  | destroyed
  deriving DecidableEq, Repr

/-- Position of a state in the lifecycle order. -/
def stateRank : HandleState → Nat
  | .idle => 0
  | .acquired => 1
  | .running => 2
  | .terminating => 3
  | .destroyed => 4

/-- Modelled from the spec: the only lifecycle transitions a handle may take
(§3 invariants: Idle→Acquired→Running→Terminating→Destroyed, no reuse). -/
inductive HandleStep : HandleState → HandleState → Prop where
  | acquireStep : HandleStep .idle .acquired
  | startStep : HandleStep .acquired .running
  | terminateStep : HandleStep .running .terminating
  | destroyStep : HandleStep .terminating .destroyed

/-- Modelled from the spec: a sandbox handle (§3), reduced to the fields the
lifecycle claims mention. -/
structure SandboxHandle where
  id : Nat
  state : HandleState
  deriving DecidableEq, Repr

/-- Modelled from the spec: `release(handle)` destroys the underlying
environment unconditionally (§4.1). -/
def release (h : SandboxHandle) : SandboxHandle :=
  { h with state := .destroyed }

/-! ## Sandbox Pool Manager accounting (modelled from the spec) -/

/-- Modelled from the spec: pool slot accounting is a single atomically
updated counter (§5); `active` counts handles in non-Idle state. -/
structure PoolState where
  active : Nat
  deriving DecidableEq, Repr

/-- Modelled from the spec: one atomic pool transition (§4.1, §5): a
successful `acquire` when a slot is free, a fast-fail `acquire` under
saturation (BackpressureError, state unchanged), or a `release`.  An
arbitrary sequence of these steps is one interleaving of concurrent calls. -/
inductive PoolStep (N : Nat) : PoolState → PoolState → Prop where
  | acquireSlot (s : PoolState) : s.active < N → PoolStep N s ⟨s.active + 1⟩
  | rejectAcquire (s : PoolState) : N ≤ s.active → PoolStep N s s
  | releaseSlot (s : PoolState) : 0 < s.active → PoolStep N s ⟨s.active - 1⟩

/-- Pool states reachable from the empty pool through any interleaving. -/
inductive PoolReachable (N : Nat) : PoolState → Prop where
  | start : PoolReachable N ⟨0⟩
  | step {s t : PoolState} : PoolReachable N s → PoolStep N s t → PoolReachable N t

/-! ## Timeout enforcement timing (modelled from the spec) -/

/-- Observable timing of one run: the timeout flag, the instant the sandbox
is destroyed, and the signals sent to the process group. -/
structure RunTiming where
  timedOut : Bool
  destroyedAt : Nat
  signals : List String
  deriving DecidableEq, Repr

/-- Modelled from the spec: timer behavior of the Execution Controller
(§4.2): a run whose natural wall time is within the limit completes then and
there; otherwise at `start + limit` the controller sends a graceful
termination to the process group, follows with an unconditional kill when the
grace window elapses first, and the sandbox is destroyed as soon as the
process group is dead.  `termResponse` is how long the process group takes to
die after the graceful signal. -/
def executeWithTimeout (limit grace start wallTime termResponse : Nat) : RunTiming :=
  if wallTime ≤ limit then
    ⟨false, start + wallTime, []⟩
  else
    ⟨true, start + limit + min termResponse grace,
      "SIGTERM:process-group" ::
        (if grace < termResponse then ["SIGKILL:process-group"] else [])⟩

/-! ## Determinism across reruns (modelled from the spec) -/

/-- Modelled from the spec: the per-run sandbox state a submission can
observe (ephemeral scratch space, §4.1/§6). -/
structure SandboxEnv where
  scratch : String
  deriving DecidableEq, Repr

/-- Modelled from the spec: a freshly provisioned sandbox has empty scratch
space (§4.1). -/
def freshSandbox : SandboxEnv := ⟨""⟩

/-- Modelled from the spec: destroying a sandbox discards its scratch
filesystem (§6), so what the next provisioning hands out is fresh again. -/
def destroySandbox (_sb : SandboxEnv) : SandboxEnv := freshSandbox

/-- Modelled from the spec: the semantics of a deterministic submitted
program — a function of the source text and of the sandbox state it runs in
(§8), returning its result and the sandbox state it leaves behind. -/
structure ProgramSem where
  exec : String → SandboxEnv → ExecutionResult × SandboxEnv

/-- Modelled from the spec: one controller run (§4.2): execute in the given
sandbox, then always destroy it. -/
def runRequest (p : ProgramSem) (src : String) (sb : SandboxEnv) :
    ExecutionResult × SandboxEnv :=
  ((p.exec src sb).1, destroySandbox (p.exec src sb).2)

/-- Two sequential runs of the same source, the second starting from
whatever sandbox state the first left in the pool. -/
def twoRuns (p : ProgramSem) (src : String) : ExecutionResult × ExecutionResult :=
  ((runRequest p src freshSandbox).1,
    (runRequest p src (runRequest p src freshSandbox).2).1)

end PySnakeByte

namespace PySnakeByte

/-! ## Theorems for claims C1, C9, C10 -/

/-- Claim C1, counterexample: the claim says the request body carries the
submitted program text in a field named `source`; but for the concrete
submission `print(1)` the body built by `api.executeCode` has `code` as its
only field name, and likewise `api.submitChallenge` has no `source` field. -/
theorem executeCode_body_has_no_source_field :
    ((executeCodeRequestBody "print(1)").map Prod.fst) = ["code"] ∧
      ¬ ("source" ∈ (executeCodeRequestBody "print(1)").map Prod.fst) ∧
      ¬ ("source" ∈ (submitChallengeRequestBody "c1" "print(1)").map Prod.fst) := by
  refine ⟨rfl, ?_, ?_⟩ <;> decide

/-- Claim C1, amended: the request body carries the submitted program text in
a field named `code` (for both POST execute and POST challenges/id/submit,
the latter also carrying `challenge_id`), and the responses are consumed as
shaped with `success` and `output`/`error` for raw execution and with `passed`
and `output`/`error` for graded submission: on success the output field is
surfaced, on failure the error field. -/
theorem request_field_is_code_and_response_shapes (code cid out err : String)
    (r : RunResponse) (g : SubmitResponse) :
    ("code", code) ∈ executeCodeRequestBody code ∧
      ("code", code) ∈ submitChallengeRequestBody cid code ∧
      ("challenge_id", cid) ∈ submitChallengeRequestBody cid code ∧
      (r.success = true → r.output = some out → out ≠ "" →
        handleRunDisplay r = (out, false)) ∧
      (r.success = false → r.error = some err → err ≠ "" →
        handleRunDisplay r = (err, true)) ∧
      (g.passed = true → submitResultText g = "✅ All tests passed!") ∧
      (g.passed = false → g.error = some err → err ≠ "" →
        submitResultText g = "❌ Tests failed: " ++ err) := by
  refine ⟨?_, ?_, ?_, ?_, ?_, ?_, ?_⟩
  · simp [executeCodeRequestBody]
  · simp [submitChallengeRequestBody]
  · simp [submitChallengeRequestBody]
  · intro hs ho hne
    simp [handleRunDisplay, hs, ho, jsOr, jsTruthy, hne]
  · intro hs he hne
    simp [handleRunDisplay, hs, he, jsOr, jsTruthy, hne]
  · intro hp
    simp [submitResultText, hp]
  · intro hp he hne
    simp [submitResultText, hp, he, jsTruthy, jsTemplate, hne]

/-- Witness for `request_field_is_code_and_response_shapes` at concrete
inputs: a successful run surfaces the output text, a failed graded submission
surfaces the error text. -/
theorem request_field_is_code_and_response_shapes_witness :
    handleRunDisplay ⟨true, some "hi", none⟩ = ("hi", false) ∧
      submitResultText ⟨false, none, some "boom"⟩ = "❌ Tests failed: boom" := by
  have h := request_field_is_code_and_response_shapes "print(1)" "c1" "hi" "boom"
    ⟨true, some "hi", none⟩ ⟨false, none, some "boom"⟩
  exact ⟨h.2.2.2.1 rfl rfl (by decide), h.2.2.2.2.2.2 rfl rfl (by decide)⟩

/-- Claim C9: `markLessonComplete` and `markChallengeComplete` are idempotent
at the client state: for an id already contained in the completed list the
call leaves the list unchanged and performs no write, and both functions
preserve the absence of duplicate ids. -/
theorem mark_complete_idempotent (hasUser : Bool) (completed : List String)
    (theId : String) (saveOk : Bool)
    (hmem : theId ∈ completed) :
    markLessonComplete hasUser completed theId saveOk = ⟨completed, false⟩ ∧
      markChallengeComplete hasUser completed theId saveOk = ⟨completed, false⟩ ∧
      (∀ (u : Bool) (l : List String) (i : String) (ok : Bool), l.Nodup →
        (markLessonComplete u l i ok).newCompleted.Nodup ∧
          (markChallengeComplete u l i ok).newCompleted.Nodup) := by
  refine ⟨?_, ?_, ?_⟩
  · cases hasUser <;> simp [markLessonComplete, hmem]
  · cases hasUser <;> simp [markChallengeComplete, hmem]
  · intro u l i ok hnd
    constructor
    · cases u with
      | false => simpa [markLessonComplete] using hnd
      | true =>
        by_cases hc : i ∈ l
        · simpa [markLessonComplete, hc] using hnd
        · by_cases hok : ok
          · have happ : (l ++ [i]).Nodup := by
              refine List.nodup_append.mpr ⟨hnd, List.nodup_singleton i, ?_⟩
              simpa [List.disjoint_singleton] using hc
            simpa [markLessonComplete, hc, hok] using happ
          · have hfil : (l.filter (fun id => !decide (id = i))).Nodup :=
              hnd.filter _
            simpa [markLessonComplete, hc, hok] using hfil
    · cases u with
      | false => simpa [markChallengeComplete] using hnd
      | true =>
        by_cases hc : i ∈ l
        · simpa [markChallengeComplete, hc] using hnd
        · by_cases hok : ok
          · have happ : (l ++ [i]).Nodup := by
              refine List.nodup_append.mpr ⟨hnd, List.nodup_singleton i, ?_⟩
              simpa [List.disjoint_singleton] using hc
            simpa [markChallengeComplete, hc, hok] using happ
          · have hfil : (l.filter (fun id => !decide (id = i))).Nodup :=
              hnd.filter _
            simpa [markChallengeComplete, hc, hok] using hfil

/-- Witness for `mark_complete_idempotent`: marking the already-completed
lesson `py:l1` again changes nothing and issues no write. -/
theorem mark_complete_idempotent_witness :
    markLessonComplete true ["py:l1"] "py:l1" true = ⟨["py:l1"], false⟩ ∧
      markChallengeComplete true ["py:l1"] "py:l1" true = ⟨["py:l1"], false⟩ := by
  have h := mark_complete_idempotent true ["py:l1"] "py:l1" true (by simp)
  exact ⟨h.1, h.2.1⟩

/-- Claim C10: the progress-marking functions are atomic with respect to
persistence failure: when the remote save rejects, the optimistically added
id is filtered out again, so the completed list after the call equals its
value before the call. -/
theorem mark_complete_atomic_on_failure (hasUser : Bool)
    (completed : List String) (theId : String) :
    (markLessonComplete hasUser completed theId false).newCompleted = completed ∧
      (markChallengeComplete hasUser completed theId false).newCompleted = completed := by
  have hfil : theId ∉ completed →
      (completed ++ [theId]).filter (fun id => !decide (id = theId)) = completed := by
    intro hni
    rw [List.filter_append]
    have h1 : completed.filter (fun id => !decide (id = theId)) = completed := by
      refine List.filter_eq_self.mpr ?_
      intro a ha
      simp only [Bool.not_eq_true', decide_eq_false_iff_not]
      intro h
      exact hni (h ▸ ha)
    have h2 : [theId].filter (fun id => !decide (id = theId)) = [] := by simp
    rw [h1, h2, List.append_nil]
  constructor
  · cases hasUser with
    | false => simp [markLessonComplete]
    | true =>
      by_cases hc : theId ∈ completed
      · simp [markLessonComplete, hc]
      · simpa [markLessonComplete, hc] using hfil hc
  · cases hasUser with
    | false => simp [markChallengeComplete]
    | true =>
      by_cases hc : theId ∈ completed
      · simp [markChallengeComplete, hc]
      · simpa [markChallengeComplete, hc] using hfil hc

/-! ## Theorems for claims C2 and C3 -/

/-- Claim C2: `normalize` assigns exactly one classification, in priority
order: timeout, then resource limit, then nonzero exit with stderr surfaced,
else success with stdout surfaced; the four guard conditions are mutually
exclusive and exhaustive, so exactly one classification applies per run. -/
theorem normalize_exactly_one_classification (r : RawOutcome) :
    (guardTimeout r → normalize r = .failure "execution timed out") ∧
      (guardResource r → normalize r = .failure "resource limit exceeded") ∧
      (guardNonZeroExit r → normalize r = .failure r.stderr) ∧
      (guardClean r → normalize r = .success r.stdout) ∧
      (guardTimeout r ∨ guardResource r ∨ guardNonZeroExit r ∨ guardClean r) ∧
      ¬ (guardTimeout r ∧ guardResource r) ∧
      ¬ (guardTimeout r ∧ guardNonZeroExit r) ∧
      ¬ (guardTimeout r ∧ guardClean r) ∧
      ¬ (guardResource r ∧ guardNonZeroExit r) ∧
      ¬ (guardResource r ∧ guardClean r) ∧
      ¬ (guardNonZeroExit r ∧ guardClean r) := by
  obtain ⟨so, se, ec, t, m⟩ := r
  cases t <;> cases m <;> by_cases hec : ec = 0 <;>
    simp [normalize, guardTimeout, guardResource, guardNonZeroExit, guardClean, hec]

/-- Witness for `normalize_exactly_one_classification`: a timed-out raw
outcome is classified as the timeout failure. -/
theorem normalize_exactly_one_classification_witness :
    guardTimeout ⟨"out", "err", 0, true, false⟩ ∧
      normalize ⟨"out", "err", 0, true, false⟩ = .failure "execution timed out" :=
  ⟨rfl, (normalize_exactly_one_classification ⟨"out", "err", 0, true, false⟩).1 rfl⟩

/-- Claim C3: the grading parse returns `passed = true` exactly when the
underlying `ExecutionResult` has `success = true` and the sentinel token is
present in its output; in every other outcome it returns `passed = false`
with diagnostics populated (capped) from stderr/stdout. -/
theorem parseVerdict_passed_iff_sentinel (tok : String) (res : ExecutionResult) :
    ((parseVerdict tok res).passed = true ↔
      (res.success = true ∧ sentinelPresent res.stdout tok = true)) ∧
      ((parseVerdict tok res).passed = false →
        (parseVerdict tok res).diagnostics = capText (res.stderr ++ res.stdout)) := by
  constructor
  · by_cases hs : res.success = true <;>
      by_cases hp : sentinelPresent res.stdout tok = true <;>
        simp [parseVerdict, hs, hp]
  · intro hf
    by_cases hcond : (res.success && sentinelPresent res.stdout tok) = true
    · exact absurd hf (by simp [parseVerdict, hcond])
    · simp [parseVerdict, hcond]

/-- Witness for `parseVerdict_passed_iff_sentinel`: a successful run whose
output contains the sentinel passes; a failed run yields the concatenated
capped diagnostics. -/
theorem parseVerdict_passed_iff_sentinel_witness :
    (parseVerdict "SENTINEL" ⟨"tests SENTINEL done", "", some 0, false, false, true⟩).passed
        = true ∧
      (parseVerdict "SENTINEL" ⟨"no", "err", some 1, false, false, false⟩).diagnostics
        = "errno" := by
  have h1 := parseVerdict_passed_iff_sentinel "SENTINEL"
    ⟨"tests SENTINEL done", "", some 0, false, false, true⟩
  have h2 := parseVerdict_passed_iff_sentinel "SENTINEL"
    ⟨"no", "err", some 1, false, false, false⟩
  refine ⟨h1.1.mpr ⟨rfl, by decide⟩, ?_⟩
  have hf : (parseVerdict "SENTINEL" ⟨"no", "err", some 1, false, false, false⟩).passed
      = false := by decide
  have hd := h2.2 hf
  calc (parseVerdict "SENTINEL" ⟨"no", "err", some 1, false, false, false⟩).diagnostics
      = capText ("err" ++ "no") := hd
    _ = "errno" := by decide

/-! ## Theorems for claims C4 to C8 -/

/-- Every `ExecutionResult` carries exactly one terminal classification. -/
theorem exists_unique_terminal_class (res : ExecutionResult) :
    ∃! c : TerminalClass, classifiesAs res c := by
  obtain ⟨so, se, ec, t, m, s⟩ := res
  cases t with
  | true =>
    refine ⟨.timedOutRun, rfl, ?_⟩
    intro c hc
    cases c <;> simp_all [classifiesAs]
  | false =>
    cases m with
    | true =>
      refine ⟨.resourceExceededRun, ⟨rfl, rfl⟩, ?_⟩
      intro c hc
      cases c <;> simp_all [classifiesAs]
    | false =>
      cases s with
      | false =>
        refine ⟨.failedRun, ⟨rfl, rfl, rfl⟩, ?_⟩
        intro c hc
        cases c <;> simp_all [classifiesAs]
      | true =>
        refine ⟨.completedRun, ⟨rfl, rfl, rfl⟩, ?_⟩
        intro c hc
        cases c <;> simp_all [classifiesAs]

/-- Claim C4: for every run-ending event — normal completion, timer expiry,
resource kill, and internal fault included — the controller produces exactly
one `ExecutionResult` (never an escaping error, so no silent drop and no
crash), and that result carries exactly one terminal classification. -/
theorem runController_total_one_classification (ev : RunEvent) :
    ∃ res : ExecutionResult, runController ev = .ok res ∧
      ∃! c : TerminalClass, classifiesAs res c := by
  cases ev with
  | completed ec so se => exact ⟨_, rfl, exists_unique_terminal_class _⟩
  | timerExpiry so se => exact ⟨_, rfl, exists_unique_terminal_class _⟩
  | resourceKill so se => exact ⟨_, rfl, exists_unique_terminal_class _⟩
  | internalFault m => exact ⟨_, rfl, exists_unique_terminal_class _⟩

/-- Claim C5: lifecycle steps follow Idle→Acquired→Running→Terminating→
Destroyed — each step moves the rank up by exactly one, successors are
unique, no step leaves Destroyed (so a handle is never reused) — and
`release` sets the state to Destroyed unconditionally and is idempotent. -/
theorem handle_lifecycle_release (s t : HandleState) (h : SandboxHandle)
    (hstep : HandleStep s t) :
    stateRank t = stateRank s + 1 ∧
      (∀ u v w : HandleState, HandleStep u v → HandleStep u w → v = w) ∧
      (∀ u : HandleState, ¬ HandleStep .destroyed u) ∧
      (release h).state = .destroyed ∧
      release (release h) = release h := by
  refine ⟨?_, ?_, ?_, rfl, rfl⟩
  · cases hstep <;> rfl
  · intro u v w h1 h2
    cases h1 <;> cases h2 <;> rfl
  · intro u hu
    cases hu

/-- Witness for `handle_lifecycle_release`: the acquire step raises the rank
from 0 to 1, and releasing a running handle destroys it idempotently. -/
theorem handle_lifecycle_release_witness :
    stateRank .acquired = stateRank .idle + 1 ∧
      (release ⟨7, .running⟩).state = .destroyed ∧
      release (release ⟨7, .running⟩) = release ⟨7, .running⟩ := by
  have h := handle_lifecycle_release .idle .acquired ⟨7, .running⟩ HandleStep.acquireStep
  exact ⟨h.1, h.2.2.2.1, h.2.2.2.2⟩

/-- Claim C6: in every pool state reachable from the empty pool under any
interleaving of acquire and release steps, the number of handles in non-Idle
state is at most the configured pool size. -/
theorem pool_active_le_poolSize (N : Nat) (s : PoolState)
    (h : PoolReachable N s) : s.active ≤ N := by
  induction h with
  | start => exact Nat.zero_le N
  | step hr hs ih =>
    cases hs with
    | acquireSlot hlt => exact hlt
    | rejectAcquire hge => exact ih
    | releaseSlot hpos => exact Nat.le_trans (Nat.sub_le _ _) ih

/-- Witness for `pool_active_le_poolSize`: after one successful acquire on an
empty pool of size 3, one handle is active, within the bound. -/
theorem pool_active_le_poolSize_witness :
    (⟨1⟩ : PoolState).active ≤ 3 :=
  pool_active_le_poolSize 3 ⟨1⟩
    (PoolReachable.step PoolReachable.start (PoolStep.acquireSlot ⟨0⟩ (by decide)))

/-- Claim C7: when the wall-clock runtime exceeds the limit, the run is
flagged `timedOut`, the process group receives the graceful-then-forceful
termination, and the sandbox is destroyed no later than `start + limit +
grace`. -/
theorem timeout_flag_and_bounded_teardown
    (limit grace start wallTime termResponse : Nat)
    (hover : limit < wallTime) :
    (executeWithTimeout limit grace start wallTime termResponse).timedOut = true ∧
      (executeWithTimeout limit grace start wallTime termResponse).destroyedAt
        ≤ start + limit + grace ∧
      "SIGTERM:process-group" ∈
        (executeWithTimeout limit grace start wallTime termResponse).signals ∧
      (grace < termResponse → "SIGKILL:process-group" ∈
        (executeWithTimeout limit grace start wallTime termResponse).signals) := by
  have hnot : ¬ wallTime ≤ limit := Nat.not_le.mpr hover
  refine ⟨?_, ?_, ?_, ?_⟩
  · simp [executeWithTimeout, hnot]
  · simp only [executeWithTimeout, if_neg hnot]
    exact Nat.add_le_add_left (Nat.min_le_right _ _) _
  · simp [executeWithTimeout, hnot]
  · intro hkill
    simp [executeWithTimeout, hnot, hkill]

/-- Witness for `timeout_flag_and_bounded_teardown`: a 12-unit run against a
10-unit limit with a 1-unit grace window times out, is torn down by instant
11, and both signals reach the process group. -/
theorem timeout_flag_and_bounded_teardown_witness :
    (executeWithTimeout 10 1 0 12 5).timedOut = true ∧
      (executeWithTimeout 10 1 0 12 5).destroyedAt ≤ 0 + 10 + 1 ∧
      "SIGTERM:process-group" ∈ (executeWithTimeout 10 1 0 12 5).signals ∧
      "SIGKILL:process-group" ∈ (executeWithTimeout 10 1 0 12 5).signals := by
  have h := timeout_flag_and_bounded_teardown 10 1 0 12 5 (by decide)
  exact ⟨h.1, h.2.1, h.2.2.1, h.2.2.2 (by decide)⟩

/-- Claim C8: two runs of the same deterministic source agree on the success
flag and on the output, because the second run starts from a sandbox state
identical to the fresh one of the first run — the destroy-on-release discipline
discards all scratch state between runs. -/
theorem deterministic_reruns_agree (p : ProgramSem) (src : String) :
    (twoRuns p src).1.success = (twoRuns p src).2.success ∧
      (twoRuns p src).1.stdout = (twoRuns p src).2.stdout :=
  ⟨rfl, rfl⟩

end PySnakeByte
